import Mathlib

/-!
Verification of the VCT InSite 4B LoRaWAN codec (`vendor/vct/insite-4b-codec.js`).

The JavaScript codec is shallowly embedded: byte arrays become `List ℕ`
(every stored byte is reduced `% 256` exactly where the source stores into a
`Uint8Array` or `DataView`), fallible functions (the source's `throw`) become
`Except String`, and JavaScript numbers on the GPS path become `JsFloat`, an
IEEE-754-style value domain (finite rational, two infinities, NaN) whose finite
arithmetic is exact rational arithmetic.  Rounding of `double` operations is
not modelled; properties that depend on rounding are out of scope here.
-/

namespace Insite4B

/-- A JavaScript number as used on the GPS decode path: a finite value
(idealised as an exact rational), positive or negative infinity, or NaN. -/
inductive JsFloat where
  | finite (q : ℚ)
  | inf
  | negInf
  | nan
deriving DecidableEq

/-- Negation of a JavaScript number. -/
def jsNeg : JsFloat → JsFloat
  | .finite q => .finite (-q)
  | .inf => .negInf
  | .negInf => .inf
  | .nan => .nan

/-- Addition of JavaScript numbers (exact on finite values). -/
def jsAdd : JsFloat → JsFloat → JsFloat
  | .nan, _ => .nan
  | _, .nan => .nan
  | .finite a, .finite b => .finite (a + b)
  | .inf, .negInf => .nan
  | .negInf, .inf => .nan
  | .inf, _ => .inf
  | _, .inf => .inf
  | .negInf, _ => .negInf
  | _, .negInf => .negInf

/-- Subtraction of JavaScript numbers, as addition of the negation. -/
def jsSub (a b : JsFloat) : JsFloat := jsAdd a (jsNeg b)

/-- Multiplication of JavaScript numbers (exact on finite values). -/
def jsMul : JsFloat → JsFloat → JsFloat
  | .nan, _ => .nan
  | _, .nan => .nan
  | .finite a, .finite b => .finite (a * b)
  | .finite a, .inf => if 0 < a then .inf else if a < 0 then .negInf else .nan
  | .finite a, .negInf => if 0 < a then .negInf else if a < 0 then .inf else .nan
  | .inf, .finite b => if 0 < b then .inf else if b < 0 then .negInf else .nan
  | .negInf, .finite b => if 0 < b then .negInf else if b < 0 then .inf else .nan
  | .inf, .inf => .inf
  | .inf, .negInf => .negInf
  | .negInf, .inf => .negInf
  | .negInf, .negInf => .inf

/-- Division of JavaScript numbers (exact on finite values; signed zero is not
modelled, a zero divisor of a nonzero finite value follows the positive-zero
rule of JavaScript). -/
def jsDiv : JsFloat → JsFloat → JsFloat
  | .nan, _ => .nan
  | _, .nan => .nan
  | .finite a, .finite b =>
    if b = 0 then (if a = 0 then .nan else if 0 < a then .inf else .negInf)
    else .finite (a / b)
  | .finite _, .inf => .finite 0
  | .finite _, .negInf => .finite 0
  | .inf, .finite b => if b < 0 then .negInf else .inf
  | .negInf, .finite b => if b < 0 then .inf else .negInf
  | .inf, _ => .nan
  | .negInf, _ => .nan

/-- JavaScript `Math.floor`. -/
def jsFloor : JsFloat → JsFloat
  | .finite q => .finite (⌊q⌋ : ℤ)
  | .inf => .inf
  | .negInf => .negInf
  | .nan => .nan

/-- JavaScript `bytes.slice(start, stop)` on an array of bytes. -/
def slice (bytes : List ℕ) (start stop : ℕ) : List ℕ :=
  (bytes.drop start).take (stop - start)

/-- JavaScript `bytes[i]` indexing; every use in the codec is in bounds for
the dispatched frame length, so the default value is never produced there. -/
def byteAt (bytes : List ℕ) (i : ℕ) : ℕ :=
  bytes.getD i 0

/-- `toBigEndian` from the source: copies the byte array into a fresh
`Uint8Array` (truncating each element to a byte) in reversed order. -/
def toBigEndian (byteArray : List ℕ) : List ℕ :=
  (byteArray.map (fun b => b % 256)).reverse

/-- `byteArrayToInteger` from the source: interprets a 1-, 2- or 4-byte array
as a big-endian unsigned integer; the empty array and unsupported widths throw.
The bytes pass through a `Uint8Array`, hence the `% 256`. -/
def byteArrayToInteger (byteArray : List ℕ) : Except String ℕ :=
  match byteArray with
  | [] => .error "Byte array must have at least one element."
  | [a] => .ok (a % 256)
  | [a, b] => .ok (a % 256 * 256 + b % 256)
  | [a, b, c, d] =>
    .ok (a % 256 * 16777216 + b % 256 * 65536 + c % 256 * 256 + d % 256)
  | _ => .error "Byte array length must be 1, 2, or 4 bytes to convert to an integer."

/-- The little-endian byte-string value of a list of bytes: byte `i` (stored
through `DataView.setUint8`, hence `% 256`) contributes with weight `256 ^ i`. -/
def littleEndianBits : List ℕ → ℕ
  | [] => 0
  | b :: rest => b % 256 + 256 * littleEndianBits rest

/-- Exact value of the IEEE-754 binary64 datum with the given 64 content bits
(sign, 11-bit exponent, 52-bit mantissa), read by `DataView.getFloat64`. -/
def doubleFromBits (bits : ℕ) : JsFloat :=
  let sign : ℕ := bits / 2 ^ 63
  let expo : ℕ := bits / 2 ^ 52 % 2 ^ 11
  let mant : ℕ := bits % 2 ^ 52
  if expo = 2047 then
    if mant = 0 then (if sign = 1 then .negInf else .inf) else .nan
  else
    let mag : ℚ :=
      if expo = 0 then (mant : ℚ) / 2 ^ 1074
      else (2 ^ 52 + (mant : ℚ)) * (2 : ℚ) ^ ((expo : ℤ) - 1075)
    .finite (if sign = 1 then -mag else mag)

/-- `byteArrayToDouble` from the source: writes the bytes little-endian into an
8-byte buffer and reads an IEEE-754 double.  The empty array throws; a byte
array longer than 8 would make `setUint8` throw a `RangeError` (never reached
by the codec, which always passes 8-byte slices). -/
def byteArrayToDouble (byteArray : List ℕ) : Except String JsFloat :=
  if byteArray.length = 0 then
    .error "Byte array must have at least one element."
  else if 8 < byteArray.length then
    .error "Offset is outside the bounds of the DataView."
  else
    .ok (doubleFromBits (littleEndianBits byteArray))

/-- `parseGPS` from the source: reads a little-endian double in packed
`DDMM.MMMMM` form and splits it into whole degrees and decimal minutes. -/
def parseGPS (bytes : List ℕ) : Except String (JsFloat × JsFloat) := do
  let doubleValue ← byteArrayToDouble bytes
  let degrees := jsFloor (jsDiv doubleValue (.finite 100))
  pure (degrees, jsSub doubleValue (jsMul degrees (.finite 100)))

/-- `dmToDecimal` from the source: degrees plus minutes over sixty, negated
exactly when the direction string is `"S"` or `"W"`. -/
def dmToDecimal (degrees minutes : JsFloat) (direction : String) : JsFloat :=
  let decimalDegrees := jsAdd degrees (jsDiv minutes (.finite 60))
  if direction = "S" ∨ direction = "W" then jsNeg decimalDegrees else decimalDegrees

/-- `getAlarmType` from the source: closed lookup with fallback `"N/A"`. -/
def getAlarmType (code : ℕ) : String :=
  if code = 1 then "SOS"
  else if code = 2 then "FIRE"
  else if code = 3 then "SOS"
  else "N/A"

/-- `getLorawanRegion` from the source: closed lookup with fallback `"N/A"`. -/
def getLorawanRegion (code : ℕ) : String :=
  if code = 0 then "AS923-1"
  else if code = 1 then "AU915"
  else if code = 2 then "EU868"
  else if code = 3 then "KR920"
  else if code = 4 then "IN865"
  else if code = 5 then "US915"
  else if code = 6 then "RU864"
  else "N/A"

/-- JavaScript `byte.toString(16)`: lowercase hexadecimal digits, no leading
zeros, `"0"` for zero. -/
def toHex (b : ℕ) : String :=
  String.mk (Nat.toDigits 16 b)

/-- JavaScript `s.padStart(2, '0')`. -/
def padStart2 (s : String) : String :=
  String.mk (List.replicate (2 - s.length) '0') ++ s

/-- `getDeviceMac` from the source: reverse the six MAC bytes, render each as
two lowercase hex digits, join with colons. -/
def getDeviceMac (macBytes : List ℕ) : String :=
  String.intercalate ":" ((toBigEndian macBytes).map (fun byte => padStart2 (toHex byte)))

/-- The Vitals record produced by `decodeVitalsData`, field for field as in the
source.  The `time` field records the (hour, minute, second) triple that the
source stamps onto the current date via `setHours`. -/
structure VitalsData where
  blood_oxygen : ℕ
  wear_status : Bool
  stress_level : ℕ
  rri : ℕ
  activity_intensity : ℕ
  blood_pressure_sbp : ℕ
  blood_pressure_dbp : ℕ
  calories : ℕ
  surface_temperature : ℚ
  steps_today : ℕ
  body_temperature : ℚ
  heart_rate : ℕ
  alarm : String
  battery : ℕ
  lorawan_region : String
  beacon_id1 : ℕ
  beacon_id1_rssi : ℕ
  beacon_id2 : ℕ
  beacon_id2_rssi : ℕ
  beacon_id3 : ℕ
  beacon_id3_rssi : ℕ
  movement_detection : Bool
  red_key : Bool
  black_key : Bool
  mainboard_temperature : ℕ
  uv_value : ℕ
  fw_version : ℕ
  fall_detection : Bool
  time_calibration : Bool
  time : ℕ × ℕ × ℕ
  device_mac : String
deriving DecidableEq

/-- The record decoded from an uplink frame: one of the three frame variants
or the structured error record for an invalid length. -/
inductive DecodedData where
  | sos (alarm : String) (device_mac : String)
  | gps (latitude : JsFloat) (longitude : JsFloat)
  | vitals (v : VitalsData)
  | err (message : String)
deriving DecidableEq

/-- `decodeSOSData` from the source (total: no fallible helper is used). -/
def decodeSOSData (bytes : List ℕ) : DecodedData :=
  .sos (getAlarmType (byteAt bytes 0)) (getDeviceMac (slice bytes 1 7))

/-- `decodeGPSData` from the source. -/
def decodeGPSData (bytes : List ℕ) : Except String DecodedData := do
  let lng_dir := if byteAt bytes 8 = 0x45 then "E"
    else if byteAt bytes 8 = 0x57 then "W" else "Unknown"
  let lat_dir := if byteAt bytes 17 = 0x4e then "N"
    else if byteAt bytes 17 = 0x53 then "S" else "Unknown"
  let lngDM ← parseGPS (slice bytes 0 8)
  let latDM ← parseGPS (slice bytes 9 17)
  let latitude := dmToDecimal latDM.1 latDM.2 lat_dir
  let longitude := dmToDecimal lngDM.1 lngDM.2 lng_dir
  pure (.gps latitude longitude)

/-- `decodeVitalsData` from the source.  The source stamps bytes 36..38 onto
the current date via `date.setHours(h, m, s, 0)`; the wall clock is outside the
embedding, so the `time` field keeps the (hour, minute, second) triple that the
source passes to `setHours`. -/
def decodeVitalsData (bytes : List ℕ) : Except String DecodedData := do
  let rri ← byteArrayToInteger (toBigEndian (slice bytes 3 5))
  let calories ← byteArrayToInteger (toBigEndian (slice bytes 8 10))
  let surfaceTemp ← byteArrayToInteger (toBigEndian (slice bytes 10 12))
  let steps ← byteArrayToInteger (toBigEndian (slice bytes 12 14))
  let bodyTemp ← byteArrayToInteger (toBigEndian (slice bytes 14 16))
  let beacon1 ← byteArrayToInteger (toBigEndian (slice bytes 20 22))
  let beacon2 ← byteArrayToInteger (toBigEndian (slice bytes 23 25))
  let beacon3 ← byteArrayToInteger (toBigEndian (slice bytes 26 28))
  pure (.vitals {
    blood_oxygen := byteAt bytes 0
    wear_status := byteAt bytes 1 == 1
    stress_level := byteAt bytes 2
    rri := rri
    activity_intensity := byteAt bytes 5
    blood_pressure_sbp := byteAt bytes 6
    blood_pressure_dbp := byteAt bytes 7
    calories := calories
    surface_temperature := (surfaceTemp : ℚ) * (1 / 100)
    steps_today := steps
    body_temperature := (bodyTemp : ℚ) * (1 / 100)
    heart_rate := byteAt bytes 16
    alarm := getAlarmType (byteAt bytes 17)
    battery := byteAt bytes 18
    lorawan_region := getLorawanRegion (byteAt bytes 19)
    beacon_id1 := beacon1
    beacon_id1_rssi := byteAt bytes 22
    beacon_id2 := beacon2
    beacon_id2_rssi := byteAt bytes 25
    beacon_id3 := beacon3
    beacon_id3_rssi := byteAt bytes 28
    movement_detection := byteAt bytes 29 == 1
    red_key := byteAt bytes 30 == 1
    black_key := byteAt bytes 31 == 1
    mainboard_temperature := byteAt bytes 32
    uv_value := byteAt bytes 33
    fw_version := byteAt bytes 34
    fall_detection := byteAt bytes 35 == 1
    time_calibration := byteAt bytes 36 == 1
    time := (byteAt bytes 36, byteAt bytes 37, byteAt bytes 38)
    device_mac := getDeviceMac (slice bytes 41 47) })

/-- `decodeUplink` from the source: dispatch on the payload length, with the
structured error record for any unsupported length. -/
def decodeUplink (bytes : List ℕ) : Except String DecodedData :=
  if bytes.length = 9 then .ok (decodeSOSData bytes)
  else if bytes.length = 22 then decodeGPSData bytes
  else if bytes.length = 49 then decodeVitalsData bytes
  else .ok (.err "Invalid payload length")

/-- The argument actually handed to `stringToBytes` at the encoder's call
sites: a JavaScript string, or — at the SCAN site — the raw boolean flag. -/
inductive JsStrArg where
  | str (s : String)
  | boolean (b : Bool)

/-- `stringToBytes` from the source: one code unit per character via
`charCodeAt`.  When the argument is a boolean (the SCAN call site), the
JavaScript property read `str.length` yields `undefined`, the loop guard
`i < undefined` is false, and the function returns the empty array. -/
def stringToBytes : JsStrArg → List ℕ
  | .str s => s.data.map Char.toNat
  | .boolean _ => []

/-- An element of the array handed to `flatten`: the source mixes byte arrays
and single numbers (the interval codes) and `flatten` distinguishes them with
`Array.isArray`. -/
inductive FlattenItem where
  | arr (l : List ℕ)
  | num (n : ℕ)

/-- `flatten` from the source: concatenates nested arrays, keeps scalars. -/
def flatten : List FlattenItem → List ℕ
  | [] => []
  | .arr l :: rest => l ++ flatten rest
  | .num n :: rest => n :: flatten rest

/-- `getUplinkIntervalCode` from the source: the closed interval lookup table,
returning the ASCII code of the single mapped character; any unmapped interval
throws. -/
def getUplinkIntervalCode (interval : ℕ) : Except String ℕ :=
  if interval = 1 then .ok 55
  else if interval = 5 then .ok 49
  else if interval = 10 then .ok 50
  else if interval = 15 then .ok 51
  else if interval = 30 then .ok 52
  else if interval = 60 then .ok 53
  else if interval = 120 then .ok 54
  else .error "Invalid uplink interval."

/-- The `input.data` command record consumed by `encodeDownlink`, with the
field types documented in the source's header comment. -/
structure DownlinkData where
  data_type : String
  uplink_interval_vitals : ℕ
  uplink_interval_gps : ℕ
  time : String
  scan : Bool
  alert_sound : Bool
  alert_type : ℕ
deriving DecidableEq

/-- The result object of `encodeDownlink`: either a byte array or an error
list. -/
inductive EncodeResult where
  | bytes (l : List ℕ)
  | errors (msgs : List String)
deriving DecidableEq

/-- The source's `endChar`, the ASCII codes of a carriage return and a line
feed. -/
def endChar : List ℕ := [13, 10]

/-- `encodeDownlink` from the source: dispatch on `data_type`; an unrecognized
command yields the error-list result, while an unmapped uplink interval throws
out of `getUplinkIntervalCode`. -/
def encodeDownlink (data : DownlinkData) : Except String EncodeResult :=
  if data.data_type = "UPLINK" then do
    let c1 ← getUplinkIntervalCode data.uplink_interval_vitals
    let c2 ← getUplinkIntervalCode data.uplink_interval_gps
    pure (.bytes (flatten [.arr (stringToBytes (.str "UPLINK:")), .num c1,
      .arr (stringToBytes (.str ",")), .num c2, .arr endChar]))
  else if data.data_type = "TIME" then
    .ok (.bytes (flatten [.arr (stringToBytes (.str "TIME:")),
      .arr (stringToBytes (.str data.time)), .arr endChar]))
  else if data.data_type = "SCAN" then
    .ok (.bytes (flatten [.arr (stringToBytes (.str "SCAN:")),
      .arr (stringToBytes (.boolean data.scan)), .arr endChar]))
  else if data.data_type = "ALERT" then
    .ok (.bytes (flatten [.arr (stringToBytes (.str "ALERT:")),
      .arr (stringToBytes (.str (if data.alert_sound then "1" else "2"))),
      .arr (stringToBytes (.str ",")), .arr (stringToBytes (.str "0")), .arr endChar]))
  else
    .ok (.errors ["Invalid data type"])

/-- Decidable equality for `Except`, needed to evaluate codec results on
concrete inputs. -/
instance exceptDecEq {ε α : Type} [DecidableEq ε] [DecidableEq α] :
    DecidableEq (Except ε α)
  | .error e, .error f =>
    if h : e = f then .isTrue (by rw [h]) else .isFalse (fun c => h (Except.error.inj c))
  | .error _, .ok _ => .isFalse Except.noConfusion
  | .ok _, .error _ => .isFalse Except.noConfusion
  | .ok a, .ok b =>
    if h : a = b then .isTrue (by rw [h]) else .isFalse (fun c => h (Except.ok.inj c))

/-! ## Helper lemmas -/

/-- Binding a successful `Except` computation runs the continuation. -/
theorem ok_bind {α β : Type} (a : α) (f : α → Except String β) :
    (Except.ok a >>= f : Except String β) = f a := rfl

/-- Binding a failed `Except` computation propagates the failure. -/
theorem error_bind {α β : Type} (e : String) (f : α → Except String β) :
    (Except.error e >>= f : Except String β) = Except.error e := rfl

/-- `pure` into `Except` is `Except.ok`. -/
theorem pure_eq_ok {α : Type} (a : α) : (pure a : Except String α) = Except.ok a := rfl

/-- Length of a slice that ends inside the byte array. -/
theorem length_slice (bytes : List ℕ) (a b : ℕ) (hb : b ≤ bytes.length) :
    (slice bytes a b).length = b - a := by
  simp only [slice, List.length_take, List.length_drop]
  omega

/-- On a two-byte slice, reversal followed by big-endian reconstruction
always succeeds. -/
theorem byteArrayToInteger_ok_of_length_two (l : List ℕ) (h : l.length = 2) :
    ∃ n, byteArrayToInteger (toBigEndian l) = Except.ok n := by
  obtain ⟨a, b, rfl⟩ := List.length_eq_two.mp h
  exact ⟨_, rfl⟩

/-- On an eight-byte slice, double reconstruction always succeeds. -/
theorem byteArrayToDouble_ok_of_length_eight (l : List ℕ) (h : l.length = 8) :
    byteArrayToDouble l = Except.ok (doubleFromBits (littleEndianBits l)) := by
  simp [byteArrayToDouble, h]

/-- GPS decoding succeeds on every 22-byte frame. -/
theorem decodeGPSData_ok (bytes : List ℕ) (h : bytes.length = 22) :
    ∃ la lo, decodeGPSData bytes = Except.ok (DecodedData.gps la lo) := by
  have h1 := byteArrayToDouble_ok_of_length_eight (slice bytes 0 8)
    (by rw [length_slice bytes 0 8 (by omega)])
  have h2 := byteArrayToDouble_ok_of_length_eight (slice bytes 9 17)
    (by rw [length_slice bytes 9 17 (by omega)])
  simp only [decodeGPSData, parseGPS, h1, h2, ok_bind, pure_eq_ok]
  exact ⟨_, _, rfl⟩

/-- Vitals decoding succeeds on every 49-byte frame. -/
theorem decodeVitalsData_ok (bytes : List ℕ) (h : bytes.length = 49) :
    ∃ v, decodeVitalsData bytes = Except.ok (DecodedData.vitals v) := by
  obtain ⟨n1, h1⟩ := byteArrayToInteger_ok_of_length_two (slice bytes 3 5)
    (by rw [length_slice bytes 3 5 (by omega)])
  obtain ⟨n2, h2⟩ := byteArrayToInteger_ok_of_length_two (slice bytes 8 10)
    (by rw [length_slice bytes 8 10 (by omega)])
  obtain ⟨n3, h3⟩ := byteArrayToInteger_ok_of_length_two (slice bytes 10 12)
    (by rw [length_slice bytes 10 12 (by omega)])
  obtain ⟨n4, h4⟩ := byteArrayToInteger_ok_of_length_two (slice bytes 12 14)
    (by rw [length_slice bytes 12 14 (by omega)])
  obtain ⟨n5, h5⟩ := byteArrayToInteger_ok_of_length_two (slice bytes 14 16)
    (by rw [length_slice bytes 14 16 (by omega)])
  obtain ⟨n6, h6⟩ := byteArrayToInteger_ok_of_length_two (slice bytes 20 22)
    (by rw [length_slice bytes 20 22 (by omega)])
  obtain ⟨n7, h7⟩ := byteArrayToInteger_ok_of_length_two (slice bytes 23 25)
    (by rw [length_slice bytes 23 25 (by omega)])
  obtain ⟨n8, h8⟩ := byteArrayToInteger_ok_of_length_two (slice bytes 26 28)
    (by rw [length_slice bytes 26 28 (by omega)])
  simp only [decodeVitalsData, h1, h2, h3, h4, h5, h6, h7, h8, ok_bind, pure_eq_ok]
  exact ⟨_, rfl⟩

/-! ## Claim theorems -/

/-- C1: for every byte sequence whose length is not 9, 22 or 49, `decodeUplink`
returns the structured error record with message `"Invalid payload length"` and
nothing else, and never raises a fault. -/
theorem decodeUplink_invalid_length (bytes : List ℕ) (h9 : bytes.length ≠ 9)
    (h22 : bytes.length ≠ 22) (h49 : bytes.length ≠ 49) :
    decodeUplink bytes = Except.ok (DecodedData.err "Invalid payload length") := by
  simp [decodeUplink, h9, h22, h49]

/-- C1 witness: a concrete 3-byte payload produces the length-error record. -/
theorem decodeUplink_invalid_length_witness :
    decodeUplink [1, 2, 3] = Except.ok (DecodedData.err "Invalid payload length") :=
  decodeUplink_invalid_length [1, 2, 3] (by decide) (by decide) (by decide)

/-- C2 counterexample: decoding `[1,0,1,2,3,4,5,6,7]` does not produce the MAC
string `"06:05:04:03:02:01"` claimed by the spec — the source slices bytes
1 to 6 (values 0..5), not 2 to 7. -/
theorem decodeUplink_sos_example_mac_ne :
    decodeUplink [1, 0, 1, 2, 3, 4, 5, 6, 7] ≠
      Except.ok (DecodedData.sos "SOS" "06:05:04:03:02:01") := by
  decide

/-- C2 amended: decoding `[1,0,1,2,3,4,5,6,7]` yields an SOS record with alarm
`"SOS"` and device MAC `"05:04:03:02:01:00"` (the reversal of the six bytes at
indices 1..6, rendered as two-digit lowercase hex joined by colons). -/
theorem decodeUplink_sos_example :
    decodeUplink [1, 0, 1, 2, 3, 4, 5, 6, 7] =
      Except.ok (DecodedData.sos "SOS" "05:04:03:02:01:00") := by
  decide

/-- C3: encoding a SCAN command emits no `"true"`/`"false"` text at all — the
source passes the raw boolean to `stringToBytes`, whose loop guard
`i < str.length` compares against `undefined` and never runs, so the output is
exactly the ASCII of `"SCAN:"` followed by the terminator, with the scan flag
dropped.  Shown here at the concrete failing input `scan = true`. -/
theorem encodeDownlink_scan_drops_flag :
    encodeDownlink ⟨"SCAN", 0, 0, "", true, false, 0⟩ =
      Except.ok (EncodeResult.bytes [83, 67, 65, 78, 58, 13, 10]) := by
  decide

/-- C5: reversing a two-byte slice and parsing big-endian is exactly
little-endian 16-bit parsing: `byteArrayToInteger (toBigEndian [a, b])` is
`a + 256 * b` for bytes `a`, `b`. -/
theorem byteArrayToInteger_toBigEndian_two (a b : ℕ) (ha : a ≤ 255) (hb : b ≤ 255) :
    byteArrayToInteger (toBigEndian [a, b]) = Except.ok (a + 256 * b) := by
  have ha2 : a % 256 = a := Nat.mod_eq_of_lt (by omega)
  have hb2 : b % 256 = b := Nat.mod_eq_of_lt (by omega)
  simp [toBigEndian, byteArrayToInteger, ha2, hb2]
  omega

/-- C5 witness: the little-endian pair `[0x34, 0x12]` parses to `0x1234`. -/
theorem byteArrayToInteger_toBigEndian_two_witness :
    byteArrayToInteger (toBigEndian [52, 18]) = Except.ok 4660 :=
  byteArrayToInteger_toBigEndian_two 52 18 (by decide) (by decide)

/-- C6: on every payload of a supported length (9, 22 or 49) the decoder
completes without a fault and returns a decoded record that is not the error
record — every slice handed to integer reconstruction has width 2 and every
slice handed to double reconstruction has width 8, so the fault branches are
unreachable. -/
theorem decodeUplink_valid_length_ok (bytes : List ℕ)
    (h : bytes.length = 9 ∨ bytes.length = 22 ∨ bytes.length = 49) :
    ∃ d, decodeUplink bytes = Except.ok d ∧ ∀ m, d ≠ DecodedData.err m := by
  rcases h with h | h | h
  · refine ⟨decodeSOSData bytes, by simp [decodeUplink, h], ?_⟩
    intro m hm
    exact DecodedData.noConfusion hm
  · obtain ⟨la, lo, hg⟩ := decodeGPSData_ok bytes h
    refine ⟨DecodedData.gps la lo, ?_, ?_⟩
    · rw [decodeUplink, if_neg (by omega), if_pos h]
      exact hg
    · intro m hm
      exact DecodedData.noConfusion hm
  · obtain ⟨v, hv⟩ := decodeVitalsData_ok bytes h
    refine ⟨DecodedData.vitals v, ?_, ?_⟩
    · rw [decodeUplink, if_neg (by omega), if_neg (by omega), if_pos h]
      exact hv
    · intro m hm
      exact DecodedData.noConfusion hm

/-- C6 witness: a concrete all-zero 9-byte payload decodes without fault to a
non-error record. -/
theorem decodeUplink_valid_length_ok_witness :
    ∃ d, decodeUplink [0, 0, 0, 0, 0, 0, 0, 0, 0] = Except.ok d ∧
      ∀ m, d ≠ DecodedData.err m :=
  decodeUplink_valid_length_ok [0, 0, 0, 0, 0, 0, 0, 0, 0] (Or.inl (by decide))

/-- An interval outside the lookup table makes `getUplinkIntervalCode` throw. -/
theorem getUplinkIntervalCode_not_mem (n : ℕ)
    (h : n ∉ ([1, 5, 10, 15, 30, 60, 120] : List ℕ)) :
    getUplinkIntervalCode n = Except.error "Invalid uplink interval." := by
  simp only [List.mem_cons, List.not_mem_nil, or_false] at h
  push_neg at h
  obtain ⟨h1, h5, h10, h15, h30, h60, h120⟩ := h
  simp [getUplinkIntervalCode, h1, h5, h10, h15, h30, h60, h120]

/-- `getUplinkIntervalCode` either returns a code or throws the interval
fault; no other outcome exists. -/
theorem getUplinkIntervalCode_cases (n : ℕ) :
    (∃ c, getUplinkIntervalCode n = Except.ok c) ∨
      getUplinkIntervalCode n = Except.error "Invalid uplink interval." := by
  unfold getUplinkIntervalCode
  repeat first
  | exact Or.inl ⟨_, rfl⟩
  | exact Or.inr rfl
  | split

/-- C7: an UPLINK command with a vitals or GPS interval outside the table
{1, 5, 10, 15, 30, 60, 120} makes `encodeDownlink` throw the interval fault
(no byte output, not a soft error result), and on table values the emitted
codes follow the mapping 1↦55, 5↦49, 10↦50, 15↦51, 30↦52, 60↦53, 120↦54
(the ASCII codes of the characters 7, 1, 2, 3, 4, 5, 6). -/
theorem encodeDownlink_uplink_interval_fault (d : DownlinkData)
    (hd : d.data_type = "UPLINK")
    (hbad : d.uplink_interval_vitals ∉ ([1, 5, 10, 15, 30, 60, 120] : List ℕ) ∨
      d.uplink_interval_gps ∉ ([1, 5, 10, 15, 30, 60, 120] : List ℕ)) :
    encodeDownlink d = Except.error "Invalid uplink interval." ∧
      getUplinkIntervalCode 1 = Except.ok 55 ∧ getUplinkIntervalCode 5 = Except.ok 49 ∧
      getUplinkIntervalCode 10 = Except.ok 50 ∧ getUplinkIntervalCode 15 = Except.ok 51 ∧
      getUplinkIntervalCode 30 = Except.ok 52 ∧ getUplinkIntervalCode 60 = Except.ok 53 ∧
      getUplinkIntervalCode 120 = Except.ok 54 := by
  refine ⟨?_, by decide, by decide, by decide, by decide, by decide, by decide, by decide⟩
  rcases hbad with hv | hg
  · have hv2 := getUplinkIntervalCode_not_mem _ hv
    simp [encodeDownlink, hd, hv2, error_bind]
  · have hg2 := getUplinkIntervalCode_not_mem _ hg
    rcases getUplinkIntervalCode_cases d.uplink_interval_vitals with ⟨c, hc⟩ | hc
    · simp [encodeDownlink, hd, hc, hg2, ok_bind, error_bind]
    · simp [encodeDownlink, hd, hc, error_bind]

/-- C7 witness: interval 7 for vitals is rejected with the interval fault. -/
theorem encodeDownlink_uplink_interval_fault_witness :
    encodeDownlink ⟨"UPLINK", 7, 5, "", false, false, 0⟩ =
      Except.error "Invalid uplink interval." :=
  (encodeDownlink_uplink_interval_fault ⟨"UPLINK", 7, 5, "", false, false, 0⟩
    rfl (Or.inl (by decide))).1

/-- C8: every command whose tag is none of UPLINK, TIME, SCAN, ALERT yields the
result carrying exactly the error list `["Invalid data type"]`, with no byte
sequence and no raised fault. -/
theorem encodeDownlink_unknown_type (d : DownlinkData)
    (h1 : d.data_type ≠ "UPLINK") (h2 : d.data_type ≠ "TIME")
    (h3 : d.data_type ≠ "SCAN") (h4 : d.data_type ≠ "ALERT") :
    encodeDownlink d = Except.ok (EncodeResult.errors ["Invalid data type"]) := by
  simp [encodeDownlink, h1, h2, h3, h4]

/-- C8 witness: the unrecognized tag `"FOO"` yields the error-list result. -/
theorem encodeDownlink_unknown_type_witness :
    encodeDownlink ⟨"FOO", 0, 0, "", false, false, 0⟩ =
      Except.ok (EncodeResult.errors ["Invalid data type"]) :=
  encodeDownlink_unknown_type ⟨"FOO", 0, 0, "", false, false, 0⟩
    (by decide) (by decide) (by decide) (by decide)

/-- C9: every ALERT command encodes to exactly the ASCII of `"ALERT:"`, then
`'1'` (49) if `alert_sound` is set and `'2'` (50) otherwise, then `','` (44),
then `'0'` (48), then the terminator 13, 10; consequently any two ALERT
commands agreeing on `alert_sound` encode identically — `alert_type` is never
encoded. -/
theorem encodeDownlink_alert (d : DownlinkData) (hd : d.data_type = "ALERT") :
    encodeDownlink d = Except.ok (EncodeResult.bytes
      ([65, 76, 69, 82, 84, 58] ++ [if d.alert_sound then 49 else 50] ++ [44, 48, 13, 10])) ∧
    ∀ d2 : DownlinkData, d2.data_type = "ALERT" → d2.alert_sound = d.alert_sound →
      encodeDownlink d2 = encodeDownlink d := by
  have main : ∀ d3 : DownlinkData, d3.data_type = "ALERT" →
      encodeDownlink d3 = Except.ok (EncodeResult.bytes
        ([65, 76, 69, 82, 84, 58] ++ [if d3.alert_sound then 49 else 50] ++
          [44, 48, 13, 10])) := by
    intro d3 hd3
    cases hs : d3.alert_sound <;>
      simp [encodeDownlink, hd3, hs, stringToBytes, flatten, endChar]
  refine ⟨main d hd, ?_⟩
  intro d2 h2 hs
  rw [main d2 h2, main d hd, hs]

/-- C9 witness: a concrete ALERT command with sound enabled emits the bytes of
`"ALERT:1,0"` plus the terminator. -/
theorem encodeDownlink_alert_witness :
    encodeDownlink ⟨"ALERT", 0, 0, "", false, true, 3⟩ =
      Except.ok (EncodeResult.bytes [65, 76, 69, 82, 84, 58, 49, 44, 48, 13, 10]) :=
  (encodeDownlink_alert ⟨"ALERT", 0, 0, "", false, true, 3⟩ rfl).1

/-- Updating a byte outside the sliced window leaves the slice unchanged. -/
theorem slice_set_of_not_mem (l : List ℕ) (v i a b : ℕ) (h : i < a ∨ b ≤ i) :
    slice (l.set i v) a b = slice l a b := by
  apply List.ext_getElem?
  intro n
  simp only [slice, List.getElem?_take, List.getElem?_drop]
  split
  · next hn => exact List.getElem?_set_ne (by omega)
  · rfl

/-- Updating a byte at a different index leaves `byteAt` unchanged. -/
theorem byteAt_set_ne (l : List ℕ) (v i j : ℕ) (h : i ≠ j) :
    byteAt (l.set i v) j = byteAt l j := by
  simp only [byteAt, List.getD_eq_getElem?_getD, List.getElem?_set_ne h]

/-- Updating a byte in bounds makes `byteAt` read the new value. -/
theorem byteAt_set_self (l : List ℕ) (v i : ℕ) (h : i < l.length) :
    byteAt (l.set i v) i = v := by
  simp only [byteAt, List.getD_eq_getElem?_getD,
    List.getElem?_set_self (by simpa using h), Option.getD_some]

/-- A direction of `"Unknown"` behaves exactly like `"E"` in `dmToDecimal`:
neither negates. -/
theorem dmToDecimal_unknown_eq_e (d m : JsFloat) :
    dmToDecimal d m "Unknown" = dmToDecimal d m "E" := by
  simp [dmToDecimal]

/-- A direction of `"Unknown"` behaves exactly like `"N"` in `dmToDecimal`:
neither negates. -/
theorem dmToDecimal_unknown_eq_n (d m : JsFloat) :
    dmToDecimal d m "Unknown" = dmToDecimal d m "N" := by
  simp [dmToDecimal]

/-- C10: on a 22-byte GPS frame, decoding succeeds whatever the hemisphere
bytes hold; if byte 8 is neither `E` (0x45) nor `W` (0x57) the frame decodes
exactly as if byte 8 were `E`, and if byte 17 is neither `N` (0x4e) nor `S`
(0x53) it decodes exactly as if byte 17 were `N` — negation happens only for
the markers `S` and `W`. -/
theorem decodeGPSData_unknown_hemisphere (bytes : List ℕ) (h : bytes.length = 22) :
    (∃ la lo, decodeGPSData bytes = Except.ok (DecodedData.gps la lo)) ∧
    (byteAt bytes 8 ≠ 0x45 → byteAt bytes 8 ≠ 0x57 →
      decodeGPSData bytes = decodeGPSData (bytes.set 8 0x45)) ∧
    (byteAt bytes 17 ≠ 0x4e → byteAt bytes 17 ≠ 0x53 →
      decodeGPSData bytes = decodeGPSData (bytes.set 17 0x4e)) := by
  refine ⟨decodeGPSData_ok bytes h, ?_, ?_⟩
  · intro hE hW
    have hs1 : slice (bytes.set 8 69) 0 8 = slice bytes 0 8 :=
      slice_set_of_not_mem bytes 69 8 0 8 (Or.inr (by omega))
    have hs2 : slice (bytes.set 8 69) 9 17 = slice bytes 9 17 :=
      slice_set_of_not_mem bytes 69 8 9 17 (Or.inl (by omega))
    have h17 : byteAt (bytes.set 8 69) 17 = byteAt bytes 17 :=
      byteAt_set_ne bytes 69 8 17 (by omega)
    have h8 : byteAt (bytes.set 8 69) 8 = 69 :=
      byteAt_set_self bytes 69 8 (by omega)
    simp only [decodeGPSData, hs1, hs2, h17, h8]
    simp only [hE, hW, if_false, if_pos rfl, if_true]
    simp only [dmToDecimal_unknown_eq_e]
  · intro hN hS
    have hs1 : slice (bytes.set 17 78) 0 8 = slice bytes 0 8 :=
      slice_set_of_not_mem bytes 78 17 0 8 (Or.inr (by omega))
    have hs2 : slice (bytes.set 17 78) 9 17 = slice bytes 9 17 :=
      slice_set_of_not_mem bytes 78 17 9 17 (Or.inr (by omega))
    have h8 : byteAt (bytes.set 17 78) 8 = byteAt bytes 8 :=
      byteAt_set_ne bytes 78 17 8 (by omega)
    have h17 : byteAt (bytes.set 17 78) 17 = 78 :=
      byteAt_set_self bytes 78 17 (by omega)
    simp only [decodeGPSData, hs1, hs2, h8, h17]
    simp only [hN, hS, if_false, if_pos rfl, if_true]
    simp only [dmToDecimal_unknown_eq_n]

/-- C10 witness: the all-zero 22-byte frame (hemisphere bytes 0, recognized by
neither marker) decodes exactly as it would with an `E` longitude marker. -/
theorem decodeGPSData_unknown_hemisphere_witness :
    decodeGPSData (List.replicate 22 0) =
      decodeGPSData ((List.replicate 22 0).set 8 69) :=
  (decodeGPSData_unknown_hemisphere (List.replicate 22 0) (by decide)).2.1
    (by decide) (by decide)

end Insite4B
